import Mathlib

/-!
Shallow embedding of `abizer/ircbot` (src/ircbot.py and src/ircbot/plugin/lab.py):
an IRC bot that answers ticket references, dispatches mention-prefixed commands
with an operator gate, and relays account-lifecycle events from a task queue to
IRC channels.  External collaborators (the IRC connection, the RT ticket
service, the Celery task client and event receiver) are modelled through the
interfaces the code uses: outbound effects become explicit `Action` values,
fallible Python code becomes `Except PyError`.
-/

namespace Ircbot

/-- A Python runtime error that can escape the embedded code. -/
inductive PyError
  | assertionError
  | indexError
deriving DecidableEq, Repr

/-- An observable side effect of the bot: an outbound IRC `privmsg`
(`conn.privmsg(target, text)`), or a Celery task submission (`task.delay(args)`). -/
inductive Action
  | privmsg (target text : String)
  | submitTask (name : String) (args : List String)
deriving DecidableEq, Repr

/-- Outcome of `task.wait(timeout=...)` followed by reading `task.result` for a
task that returns a list of strings: either the result list, or
`celery.exceptions.TimeoutError`. -/
inductive ListOutcome
  | success (l : List String)
  | timedOut
deriving DecidableEq, Repr

/-- The collaborators `CreateBot.on_pubmsg` and `handle_command` consult:
the joined channels (`self.channels` keys), the channel operators
(`self.channels[target].opers()`), the RT ticket lookup
(`RtTicket.from_number` rendered by `str`, `none` when it raises
`AssertionError`), and the Celery task wait (`task.wait(timeout)` +
`task.result` for a given task name). -/
structure BotEnv where
  channels : List String
  opers : String → List String
  lookupTicket : Nat → Option String
  wait : String → Nat → ListOutcome

/-- `int(s)` on a digit string. -/
def strToNat (s : String) : Nat :=
  s.toList.foldl (fun n c => n * 10 + (c.toNat - '0'.toNat)) 0

/-- One left-to-right scan step of `re.findall(r'rt#([0-9]+)', msg)`:
at each position, try to match the literal `rt#` followed by a greedy
non-empty digit run; on success capture the digits and resume after the
match, otherwise advance one character.  `fuel` bounds the recursion by the
input length (each step consumes at least one character). -/
def findTicketsAux : Nat → List Char → List String
  | 0, _ => []
  | _ + 1, [] => []
  | fuel + 1, c :: rest =>
    match c, rest with
    | 'r', 't' :: '#' :: tl =>
      let ds := tl.takeWhile Char.isDigit
      if ds.isEmpty then
        findTicketsAux fuel rest
      else
        ds.asString :: findTicketsAux fuel (tl.dropWhile Char.isDigit)
    | _, _ => findTicketsAux fuel rest

/-- `re.findall(r'rt#([0-9]+)', msg)` (src/ircbot.py line 76). -/
def findTickets (msg : String) : List String :=
  findTicketsAux msg.toList.length msg.toList

/-- The `respond` closure of `on_pubmsg` (src/ircbot.py lines 72-74):
`fmt = '{user}: {msg}' if ping else '{msg}'; conn.privmsg(event.target, ...)`. -/
def respondAction (user target msg : String) (ping : Bool) : Action :=
  Action.privmsg target (if ping then user ++ ": " ++ msg else msg)

/-- `CreateBot.handle_command` (src/ircbot.py lines 89-118).  Returns the
sequence of effects, or the Python error that escapes (`args[0]` on an empty
`args` raises `IndexError`).  The operator-gated block runs first; the
`thanks`/`thank` block runs afterwards for every sender. -/
def handle_command (env : BotEnv) (is_oper : Bool) (command : String)
    (args : List String) (user target : String) : Except PyError (List Action) :=
  let operActs : Except PyError (List Action) :=
    if is_oper then
      if command = "list" then
        Except.ok (Action.submitTask "get_pending_requests" [] ::
          match env.wait "get_pending_requests" 5 with
          | ListOutcome.success l =>
            if l ≠ [] then
              l.map (fun request => respondAction user target request true)
            else
              [respondAction user target "no pending requests" true]
          | ListOutcome.timedOut =>
            [respondAction user target "timed out loading list of requests, sorry!" true])
      else if command = "approve" then
        match args with
        | [] => Except.error PyError.indexError
        | userName :: _ =>
          Except.ok [Action.submitTask "approve_request" [userName],
            respondAction user target
              ("approved " ++ userName ++ ", the account is being created") true]
      else if command = "reject" then
        match args with
        | [] => Except.error PyError.indexError
        | userName :: _ =>
          Except.ok [Action.submitTask "reject_request" [userName],
            respondAction user target
              ("rejected " ++ userName ++ ", better luck next time") true]
      else Except.ok []
    else Except.ok []
  match operActs with
  | Except.error e => Except.error e
  | Except.ok acts =>
    let genActs :=
      if command = "thanks" then
        [respondAction user target "you're welcome" true]
      else if command = "thank" then
        let thing := String.intercalate " " args
        if thing = "you" then
          [respondAction user target "you're most welcome" true]
        else
          [respondAction user target ("thanks, " ++ thing ++ "!") false]
      else []
    Except.ok (acts ++ genActs)

/-- Python `s.startswith(p)`: `p` is a character-wise prefix of `s`. -/
def pyStartsWith (s p : String) : Bool :=
  p.toList.isPrefixOf s.toList

/-- Python `s[n:]`: drop the first `n` characters of `s`. -/
def pyDrop (s : String) (n : Nat) : String :=
  (s.toList.drop n).asString

/-- Python `s.strip()`: remove leading and trailing whitespace. -/
def pyStrip (s : String) : String :=
  ((s.toList.dropWhile Char.isWhitespace).reverse.dropWhile
    Char.isWhitespace).reverse.asString

/-- Helper for `pySplit`: fields accumulate in `acc` (reversed) until the
separator or the end of the input. -/
def pySplitAux (sep : Char) : List Char → List Char → List String
  | [], acc => [acc.reverse.asString]
  | c :: rest, acc =>
    if c = sep then acc.reverse.asString :: pySplitAux sep rest []
    else pySplitAux sep rest (c :: acc)

/-- Python `s.split(sep)` for a single-character separator: one field per
occurrence of the separator (adjacent separators yield empty fields; the
result is never the empty list). -/
def pySplit (s : String) (sep : Char) : List String :=
  pySplitAux sep s.toList []

/-- An incoming IRC public-message event (`event.source`, `event.target`,
`event.arguments`). -/
structure Event where
  source : String
  target : String
  arguments : List String
deriving DecidableEq, Repr

/-- `CreateBot.on_pubmsg` (src/ircbot.py lines 55-87).  `botNick` is
`IRC_NICKNAME`.  Faithful to the source's order: channel membership check,
`assert event.source.count('!') == 1`, self-message discard
(`user.startswith('create')`), operator lookup,
`assert len(event.arguments) == 1`, then the ticket branch and, only when no
ticket reference is present (`elif`), the mention-prefixed command branch. -/
def on_pubmsg (env : BotEnv) (botNick : String) (ev : Event) :
    Except PyError (List Action) :=
  if ev.target ∈ env.channels then
    if ev.source.toList.count '!' ≠ 1 then
      Except.error PyError.assertionError
    else
      let user := (ev.source.toList.takeWhile (fun c => c ≠ '!')).asString
      if pyStartsWith user "create" then
        Except.ok []
      else
        let is_oper := (env.opers ev.target).contains user
        match ev.arguments with
        | [msg] =>
          let tickets := findTickets msg
          if tickets ≠ [] then
            Except.ok (tickets.filterMap (fun t =>
              (env.lookupTicket (strToNat t)).map
                (fun summary => respondAction user ev.target summary true)))
          else if pyStartsWith msg (botNick ++ " ") ||
              pyStartsWith msg (botNick ++ ": ") then
            match pySplit (pyStrip (pyDrop msg (botNick.length + 1))) ' ' with
            | command :: args => handle_command env is_oper command args user ev.target
            | [] => Except.ok []
          else
            Except.ok []
        | _ => Except.error PyError.assertionError
  else
    Except.ok []

/-- The `request` payload carried by a Celery lifecycle event
(`event['request']` with its `user_name`, `real_name`, `reasons` keys). -/
structure Request where
  user_name : String
  real_name : String
  reasons : List String
deriving DecidableEq, Repr

/-- A typed lifecycle event, one constructor per handler registered with the
`EventReceiver` in `celery_listener` (src/ircbot.py lines 175-183):
`ocflib.account_created/_submitted/_approved/_rejected`. -/
inductive LifecycleEvent
  | created (r : Request)
  | submitted (r : Request)
  | approved (r : Request)
  | rejected (r : Request)
deriving DecidableEq, Repr

/-- `bot_announce` (src/ircbot.py lines 121-123): send `message` to every
channel in `targets`. -/
def bot_announce (targets : List String) (message : String) : List Action :=
  targets.map (fun target => Action.privmsg target message)

/-- `on_account_created` (src/ircbot.py lines 130-139); `ann` is
`IRC_CHANNELS_ANNOUNCE`. -/
def on_account_created (ann : List String) (r : Request) : List Action :=
  bot_announce ann (r.user_name ++ " created (" ++ r.real_name ++ ")")

/-- `on_account_submitted` (src/ircbot.py lines 141-151); `channels` is
`IRC_CHANNELS`, all joined channels. -/
def on_account_submitted (channels : List String) (r : Request) : List Action :=
  bot_announce channels
    (r.user_name ++ " (" ++ r.real_name ++ ") needs approval: " ++
      String.intercalate ", " r.reasons)

/-- `on_account_approved` (src/ircbot.py lines 153-161). -/
def on_account_approved (ann : List String) (r : Request) : List Action :=
  bot_announce ann (r.user_name ++ " was approved, now pending creation.")

/-- `on_account_rejected` (src/ircbot.py lines 163-171). -/
def on_account_rejected (ann : List String) (r : Request) : List Action :=
  bot_announce ann (r.user_name ++ " was rejected.")

/-- Dispatch of one received event through the `handlers` table the
`EventReceiver` is built with (src/ircbot.py lines 175-183). -/
def celery_handle (channels ann : List String) : LifecycleEvent → List Action
  | LifecycleEvent.created r => on_account_created ann r
  | LifecycleEvent.submitted r => on_account_submitted channels r
  | LifecycleEvent.approved r => on_account_approved ann r
  | LifecycleEvent.rejected r => on_account_rejected ann r

/-- What the relay loop observes from the transport: a delivered event, or a
disconnect ending the current `recv.capture` call (per the collaborator
interface, `EventSource.subscribe` blocks until disconnect and then returns,
whereupon the `while True` loop of `celery_listener`, src/ircbot.py lines
173-184, builds a fresh `EventReceiver` and subscribes again). -/
inductive RelayInput
  | event (e : LifecycleEvent)
  | disconnect
deriving DecidableEq, Repr

/-- The relay loop run over a finite input trace: each event is handled by
`celery_handle`; a disconnect produces no output and the loop continues with
a new subscription.  No input leads to termination of the loop. -/
def relayOutputs (channels ann : List String) : List RelayInput → List Action
  | [] => []
  | RelayInput.event e :: rest =>
    celery_handle channels ann e ++ relayOutputs channels ann rest
  | RelayInput.disconnect :: rest => relayOutputs channels ann rest

/-- Number of subscriptions (constructions of an `EventReceiver`) the relay
loop has made after consuming a trace: one initially, one more after every
disconnect. -/
def relaySubscriptions : List RelayInput → Nat
  | [] => 1
  | RelayInput.event _ :: rest => relaySubscriptions rest
  | RelayInput.disconnect :: rest => relaySubscriptions rest + 1

/-- Modelled from the spec: the listener registry behind `bot.listen` is not
part of src/ (only its caller, `register` in src/ircbot/plugin/lab.py, is).
Per the spec, `PatternRegistry` stores `(pattern, handler, mentionRequired)`
tuples; the pattern is the regex as a match predicate on the message text and
the handler is identified abstractly. -/
structure ListenerEntry where
  pattern : String → Bool
  handler : Nat
  requireMention : Bool

/-- Modelled from the spec: whether one registered entry matches a message —
its pattern matches the text and, when the entry requires a mention, the
message is mention-prefixed. -/
def matchesEntry (e : ListenerEntry) (text : String) (mentioned : Bool) : Bool :=
  e.pattern text && (!e.requireMention || mentioned)

/-- Modelled from the spec: firing one message against the registry
dispatches, in registration order, the handler of each entry whose pattern
matches — once per registered entry. -/
def dispatchListeners (registry : List ListenerEntry) (text : String)
    (mentioned : Bool) : List Nat :=
  (registry.filter (fun e => matchesEntry e text mentioned)).map
    (fun e => e.handler)

/-- A concrete collaborator environment used for witnesses and
counterexamples: one joined channel with one operator, a ticket service
knowing only ticket 5, and a pending-requests task returning two requests. -/
def env0 : BotEnv where
  channels := ["#chan"]
  opers := fun c => if c = "#chan" then ["oper1"] else []
  lookupTicket := fun n => if n = 5 then some "ticket five" else none
  wait := fun _ _ => ListOutcome.success ["req1", "req2"]

/-- Auxiliary: the ticket scanner on a sample input — one sanity anchor for
the regex model (`rt#` must be followed by at least one digit; digit runs
are greedy; matches are non-overlapping). -/
theorem findTickets_sample :
    findTickets "rt#12 and rt#0045x rt# none" = ["12", "0045"] := by decide

/-- Auxiliary: a `filterMap` whose function succeeds on every element of the
list preserves the length. -/
theorem length_filterMap_of_isSome {α β : Type} (f : α → Option β) :
    ∀ l : List α, (∀ a ∈ l, (f a).isSome = true) →
      (l.filterMap f).length = l.length := by
  intro l
  induction l with
  | nil => intro _; rfl
  | cons a t ih =>
    intro h
    have ha := h a (List.mem_cons_self a t)
    obtain ⟨b, hb⟩ := Option.isSome_iff_exists.mp ha
    simp [List.filterMap_cons, hb,
      ih (fun x hx => h x (List.mem_cons_of_mem a hx))]

/-- C2 (counterexample): a public message in a joined channel whose source
has two `!` characters is not dropped silently — `on_pubmsg` raises an
`AssertionError` (the `assert event.source.count('!') == 1` at
src/ircbot.py line 60), contradicting the claim that dispatch drops the
message without raising an error. -/
theorem c2_counterexample :
    "#chan" ∈ env0.channels
    ∧ "mal!formed!src".toList.count '!' ≠ 1
    ∧ on_pubmsg env0 "create" ⟨"mal!formed!src", "#chan", ["hello"]⟩
        = Except.error PyError.assertionError :=
  ⟨by decide, by decide, rfl⟩

/-- C2 (amended): for every public message in a joined channel whose source
does not contain exactly one `!`, dispatch raises an uncaught
`AssertionError`: no Responder call is made, but the malformed sender
identity is surfaced as an error rather than contained. -/
theorem c2_malformed_source_asserts (env : BotEnv) (botNick : String)
    (ev : Event) (hchan : ev.target ∈ env.channels)
    (hsrc : ev.source.toList.count '!' ≠ 1) :
    on_pubmsg env botNick ev = Except.error PyError.assertionError := by
  unfold on_pubmsg
  rw [if_pos hchan, if_pos hsrc]

/-- C2 (witness): the amended theorem applied to a source with no `!` at
all. -/
theorem c2_malformed_source_asserts_witness :
    ("#chan" ∈ env0.channels ∧ "nobang".toList.count '!' ≠ 1)
    ∧ on_pubmsg env0 "create" ⟨"nobang", "#chan", ["hi"]⟩
        = Except.error PyError.assertionError :=
  ⟨⟨by decide, by decide⟩,
    c2_malformed_source_asserts env0 "create" ⟨"nobang", "#chan", ["hi"]⟩
      (by decide) (by decide)⟩

/-- C1 (counterexample): a message that both contains a ticket reference and
is mention-prefixed with the bot's nickname is answered with the ticket
summary only — the command handler is never invoked (the `elif` at
src/ircbot.py line 85), so the claimed `thanks` response is absent. -/
theorem c1_counterexample :
    pyStartsWith "create: thanks rt#5" ("create" ++ ": ") = true
    ∧ findTickets "create: thanks rt#5" ≠ []
    ∧ on_pubmsg env0 "create" ⟨"alice!a@b", "#chan", ["create: thanks rt#5"]⟩
        = Except.ok [Action.privmsg "#chan" "alice: ticket five"]
    ∧ Action.privmsg "#chan" ("alice" ++ ": " ++ "you're welcome")
        ∉ [Action.privmsg "#chan" "alice: ticket five"] :=
  ⟨by decide, by decide, rfl, by decide⟩

/-- C1 (amended): ticket processing and command handling are mutually
exclusive, with the ticket branch taking precedence: whenever the text of a
well-formed public message contains at least one `rt#<digits>` reference,
dispatch responds with the ticket summaries only and does not parse or
invoke the command handler, even when the message is mention-prefixed. -/
theorem c1_ticket_branch_excludes_commands (env : BotEnv) (botNick : String)
    (ev : Event) (msg : String)
    (hchan : ev.target ∈ env.channels)
    (hsrc : ev.source.toList.count '!' = 1)
    (hself : pyStartsWith
      (ev.source.toList.takeWhile (fun c => c ≠ '!')).asString "create" = false)
    (hargs : ev.arguments = [msg])
    (htick : findTickets msg ≠ []) :
    on_pubmsg env botNick ev
      = Except.ok ((findTickets msg).filterMap (fun t =>
          (env.lookupTicket (strToNat t)).map (fun summary =>
            respondAction (ev.source.toList.takeWhile (fun c => c ≠ '!')).asString
              ev.target summary true))) := by
  simp only [on_pubmsg, hchan, hsrc, hself, hargs, htick, if_true, if_false,
    ne_eq, not_true_eq_false, not_false_eq_true, ite_true, ite_false,
    Bool.false_eq_true, if_neg, reduceIte]

/-- C1 (witness): the amended theorem at a concrete mention-prefixed message
carrying one known and one unknown ticket reference. -/
theorem c1_ticket_branch_excludes_commands_witness :
    ("#chan" ∈ env0.channels
      ∧ "bob!b@c".toList.count '!' = 1
      ∧ pyStartsWith
          ("bob!b@c".toList.takeWhile (fun c => c ≠ '!')).asString "create" = false
      ∧ findTickets "create: see rt#5 and rt#7" ≠ [])
    ∧ on_pubmsg env0 "create"
        ⟨"bob!b@c", "#chan", ["create: see rt#5 and rt#7"]⟩
        = Except.ok ((findTickets "create: see rt#5 and rt#7").filterMap (fun t =>
            (env0.lookupTicket (strToNat t)).map (fun summary =>
              respondAction
                ("bob!b@c".toList.takeWhile (fun c => c ≠ '!')).asString
                "#chan" summary true))) :=
  ⟨⟨by decide, by decide, by decide, by decide⟩,
    c1_ticket_branch_excludes_commands env0 "create"
      ⟨"bob!b@c", "#chan", ["create: see rt#5 and rt#7"]⟩
      "create: see rt#5 and rt#7"
      (by decide) (by decide) (by decide) rfl (by decide)⟩

/-- C3: for a well-formed public message whose text contains `k ≥ 1`
occurrences of `rt#<digits>`, dispatch never raises: it answers exactly the
references whose lookup succeeds (in order), so there are exactly `k`
Responder calls when every lookup succeeds, and a failed lookup is skipped
silently while every remaining reference is still processed. -/
theorem c3_ticket_fault_isolation (env : BotEnv) (botNick : String)
    (ev : Event) (msg : String)
    (hchan : ev.target ∈ env.channels)
    (hsrc : ev.source.toList.count '!' = 1)
    (hself : pyStartsWith
      (ev.source.toList.takeWhile (fun c => c ≠ '!')).asString "create" = false)
    (hargs : ev.arguments = [msg])
    (htick : findTickets msg ≠ []) :
    on_pubmsg env botNick ev
      = Except.ok ((findTickets msg).filterMap (fun t =>
          (env.lookupTicket (strToNat t)).map (fun summary =>
            respondAction (ev.source.toList.takeWhile (fun c => c ≠ '!')).asString
              ev.target summary true)))
    ∧ ((∀ t ∈ findTickets msg, (env.lookupTicket (strToNat t)).isSome = true) →
        ((findTickets msg).filterMap (fun t =>
          (env.lookupTicket (strToNat t)).map (fun summary =>
            respondAction (ev.source.toList.takeWhile (fun c => c ≠ '!')).asString
              ev.target summary true))).length = (findTickets msg).length) := by
  constructor
  · simp only [on_pubmsg, hchan, hsrc, hself, hargs, htick, if_true, if_false,
      ne_eq, not_true_eq_false, not_false_eq_true, ite_true, ite_false,
      Bool.false_eq_true, if_neg, reduceIte]
  · intro hall
    apply length_filterMap_of_isSome
    intro t ht
    have hsome := hall t ht
    cases hcase : env.lookupTicket (strToNat t) with
    | none => rw [hcase] at hsome; exact absurd hsome (by simp)
    | some v => simp [hcase]

/-- C3 (witness): the theorem at a concrete message with two ticket
references that both resolve, giving exactly two Responder calls. -/
theorem c3_ticket_fault_isolation_witness :
    ("#chan" ∈ env0.channels
      ∧ "carol!c@d".toList.count '!' = 1
      ∧ pyStartsWith
          ("carol!c@d".toList.takeWhile (fun c => c ≠ '!')).asString "create" = false
      ∧ findTickets "see rt#5 and rt#5" ≠ []
      ∧ ∀ t ∈ findTickets "see rt#5 and rt#5",
          (env0.lookupTicket (strToNat t)).isSome = true)
    ∧ on_pubmsg env0 "create" ⟨"carol!c@d", "#chan", ["see rt#5 and rt#5"]⟩
        = Except.ok ((findTickets "see rt#5 and rt#5").filterMap (fun t =>
            (env0.lookupTicket (strToNat t)).map (fun summary =>
              respondAction
                ("carol!c@d".toList.takeWhile (fun c => c ≠ '!')).asString
                "#chan" summary true)))
    ∧ ((findTickets "see rt#5 and rt#5").filterMap (fun t =>
          (env0.lookupTicket (strToNat t)).map (fun summary =>
            respondAction
              ("carol!c@d".toList.takeWhile (fun c => c ≠ '!')).asString
              "#chan" summary true))).length
        = (findTickets "see rt#5 and rt#5").length :=
  ⟨⟨by decide, by decide, by decide, by decide, by decide⟩,
    (c3_ticket_fault_isolation env0 "create"
      ⟨"carol!c@d", "#chan", ["see rt#5 and rt#5"]⟩ "see rt#5 and rt#5"
      (by decide) (by decide) (by decide) rfl (by decide)).1,
    (c3_ticket_fault_isolation env0 "create"
      ⟨"carol!c@d", "#chan", ["see rt#5 and rt#5"]⟩ "see rt#5 and rt#5"
      (by decide) (by decide) (by decide) rfl (by decide)).2 (by decide)⟩

/-- C4: registering a listener and firing one message that matches it while
every other registered listener does not match dispatches the registered
handler exactly once — never zero times and never twice — regardless of how
many non-matching listeners surround it in the registry. -/
theorem c4_listener_roundtrip (ahead tail : List ListenerEntry)
    (e : ListenerEntry) (text : String) (mentioned : Bool)
    (hmatch : matchesEntry e text mentioned = true)
    (hothers : ∀ x ∈ ahead ++ tail, matchesEntry x text mentioned = false) :
    dispatchListeners (ahead ++ e :: tail) text mentioned = [e.handler]
    ∧ (dispatchListeners (ahead ++ e :: tail) text mentioned).count e.handler
        = 1 := by
  have h1 : ahead.filter (fun x => matchesEntry x text mentioned) = [] :=
    List.filter_eq_nil_iff.mpr (fun a ha => by
      simp [hothers a (List.mem_append_left _ ha)])
  have h2 : tail.filter (fun x => matchesEntry x text mentioned) = [] :=
    List.filter_eq_nil_iff.mpr (fun a ha => by
      simp [hothers a (List.mem_append_right _ ha)])
  have key : dispatchListeners (ahead ++ e :: tail) text mentioned
      = [e.handler] := by
    unfold dispatchListeners
    rw [List.filter_append, h1, List.nil_append]
    simp [List.filter_cons, hmatch, h2]
  exact ⟨key, by rw [key]; simp⟩

/-- C4 (witness): a registry with one matching mention-required listener
between two non-matching listeners fires handler 1 exactly once. -/
theorem c4_listener_roundtrip_witness :
    (matchesEntry ⟨fun s => pyStartsWith s "is ", 1, true⟩
        "is bob in the lab" true = true
      ∧ ∀ x ∈ ([⟨fun s => pyStartsWith s "who", 2, true⟩] ++
            [⟨fun s => pyStartsWith s "zzz", 3, false⟩] : List ListenerEntry),
          matchesEntry x "is bob in the lab" true = false)
    ∧ dispatchListeners
        ([⟨fun s => pyStartsWith s "who", 2, true⟩] ++
          (⟨fun s => pyStartsWith s "is ", 1, true⟩ : ListenerEntry) ::
            [⟨fun s => pyStartsWith s "zzz", 3, false⟩])
        "is bob in the lab" true = [1] :=
  ⟨⟨by decide, by decide⟩,
    (c4_listener_roundtrip [⟨fun s => pyStartsWith s "who", 2, true⟩]
      [⟨fun s => pyStartsWith s "zzz", 3, false⟩]
      ⟨fun s => pyStartsWith s "is ", 1, true⟩
      "is bob in the lab" true (by decide) (by decide)).1⟩

/-- Auxiliary: the relay loop's output over a concatenated input trace is
the concatenation of the outputs — the loop keeps processing whatever
follows, for any trace. -/
theorem relayOutputs_append (channels ann : List String)
    (t1 t2 : List RelayInput) :
    relayOutputs channels ann (t1 ++ t2)
      = relayOutputs channels ann t1 ++ relayOutputs channels ann t2 := by
  induction t1 with
  | nil => rfl
  | cons i rest ih => cases i <;> simp [relayOutputs, ih]

/-- Auxiliary: every disconnect adds exactly one new subscription. -/
theorem relaySubscriptions_split (t1 : List RelayInput) :
    ∀ t2, relaySubscriptions (t1 ++ RelayInput.disconnect :: t2)
      = relaySubscriptions t1 + relaySubscriptions t2 := by
  induction t1 with
  | nil => intro t2; simp [relaySubscriptions]; omega
  | cons i rest ih =>
    intro t2
    cases i with
    | event e => simp [relaySubscriptions, ih]
    | disconnect => simp [relaySubscriptions, ih]; omega

/-- C5: when the relay's subscription disconnects mid-stream, the
`while True` loop of `celery_listener` subscribes again (the subscription
count grows past every disconnect) and the events delivered afterwards are
still handled and announced; the loop's output is defined for every input
trace and every continuation of it — there is no terminal state. -/
theorem c5_relay_reconnects (channels ann : List String)
    (before after : List RelayInput) (e : LifecycleEvent) :
    relayOutputs channels ann
        (before ++ RelayInput.disconnect :: RelayInput.event e :: after)
      = relayOutputs channels ann before ++ celery_handle channels ann e
          ++ relayOutputs channels ann after
    ∧ relaySubscriptions
        (before ++ RelayInput.disconnect :: RelayInput.event e :: after)
      = relaySubscriptions before
          + relaySubscriptions (RelayInput.event e :: after)
    ∧ (∀ t more : List RelayInput, relayOutputs channels ann (t ++ more)
        = relayOutputs channels ann t ++ relayOutputs channels ann more) := by
  refine ⟨?_, relaySubscriptions_split before _, relayOutputs_append channels ann⟩
  rw [relayOutputs_append]
  simp [relayOutputs, List.append_assoc]

/-- C9: the operator command `list` submits `get_pending_requests` and waits
up to 5 seconds: an empty result is answered with `"no pending requests"`, a
timeout with the timeout apology, and otherwise there is exactly one
Responder call per pending request in the result (src/ircbot.py lines
91-101). -/
theorem c9_list_command (env : BotEnv) (args : List String)
    (user target : String) :
    (env.wait "get_pending_requests" 5 = ListOutcome.success [] →
      handle_command env true "list" args user target
        = Except.ok [Action.submitTask "get_pending_requests" [],
            Action.privmsg target (user ++ ": " ++ "no pending requests")])
    ∧ (env.wait "get_pending_requests" 5 = ListOutcome.timedOut →
      handle_command env true "list" args user target
        = Except.ok [Action.submitTask "get_pending_requests" [],
            Action.privmsg target
              (user ++ ": " ++ "timed out loading list of requests, sorry!")])
    ∧ (∀ l, env.wait "get_pending_requests" 5 = ListOutcome.success l →
        l ≠ [] →
      handle_command env true "list" args user target
        = Except.ok (Action.submitTask "get_pending_requests" [] ::
            l.map (fun request =>
              Action.privmsg target (user ++ ": " ++ request)))
      ∧ (l.map (fun request =>
            Action.privmsg target (user ++ ": " ++ request))).length
          = l.length) := by
  refine ⟨fun h => ?_, fun h => ?_, fun l h hl => ⟨?_, by simp⟩⟩
  · simp [handle_command, h, respondAction]
  · simp [handle_command, h, respondAction]
  · simp [handle_command, h, hl, respondAction]

/-- C9 (witness): the theorem at the concrete environment whose pending
request list holds two requests. -/
theorem c9_list_command_witness :
    (env0.wait "get_pending_requests" 5 = ListOutcome.success ["req1", "req2"]
      ∧ (["req1", "req2"] : List String) ≠ [])
    ∧ handle_command env0 true "list" [] "alice" "#chan"
        = Except.ok [Action.submitTask "get_pending_requests" [],
            Action.privmsg "#chan" ("alice" ++ ": " ++ "req1"),
            Action.privmsg "#chan" ("alice" ++ ": " ++ "req2")] :=
  ⟨⟨rfl, by decide⟩,
    ((c9_list_command env0 [] "alice" "#chan").2.2 ["req1", "req2"]
      rfl (by decide)).1⟩

/-- C6: each lifecycle event is relayed as exactly the template text of its
kind to its kind's channel set — `Submitted` goes to all joined channels
(`IRC_CHANNELS`) with `"<user> (<realName>) needs approval: <reasons joined
by ', '>"`, while `Created`, `Approved` and `Rejected` go only to the
announcement channels (`IRC_CHANNELS_ANNOUNCE`) with their respective
templates (src/ircbot.py lines 130-171). -/
theorem c6_event_templates (channels ann : List String) (u r : String)
    (rs : List String) :
    celery_handle channels ann (LifecycleEvent.submitted ⟨u, r, rs⟩)
      = channels.map (fun c => Action.privmsg c
          (u ++ " (" ++ r ++ ") needs approval: " ++ String.intercalate ", " rs))
    ∧ celery_handle channels ann (LifecycleEvent.created ⟨u, r, rs⟩)
      = ann.map (fun c => Action.privmsg c (u ++ " created (" ++ r ++ ")"))
    ∧ celery_handle channels ann (LifecycleEvent.approved ⟨u, r, rs⟩)
      = ann.map (fun c =>
          Action.privmsg c (u ++ " was approved, now pending creation."))
    ∧ celery_handle channels ann (LifecycleEvent.rejected ⟨u, r, rs⟩)
      = ann.map (fun c => Action.privmsg c (u ++ " was rejected.")) :=
  ⟨rfl, rfl, rfl, rfl⟩

/-- C7: for a non-operator sender, the operator-only commands `list`,
`approve` and `reject` produce no Responder calls and submit no tasks
(result is the empty action list), while `thanks` and `thank` still produce
their responses for that same non-operator sender (src/ircbot.py lines
89-118). -/
theorem c7_operator_gate (env : BotEnv) (args : List String)
    (user target : String) :
    handle_command env false "list" args user target = Except.ok []
    ∧ handle_command env false "approve" args user target = Except.ok []
    ∧ handle_command env false "reject" args user target = Except.ok []
    ∧ handle_command env false "thanks" args user target
      = Except.ok [Action.privmsg target (user ++ ": " ++ "you're welcome")]
    ∧ handle_command env false "thank" args user target
      = Except.ok (if String.intercalate " " args = "you" then
            [Action.privmsg target (user ++ ": " ++ "you're most welcome")]
          else
            [Action.privmsg target
              ("thanks, " ++ String.intercalate " " args ++ "!")]) :=
  ⟨rfl, rfl, rfl, rfl, rfl⟩

/-- C8: for every sender (operator or not), `thank` with arguments joining
to exactly `"you"` responds `"you're most welcome"` addressed with the
`"<nick>: "` prefix; `thank` with any other argument words `w` responds
exactly `"thanks, <w>!"` as bare text with no sender prefix (ping=false);
and `thanks` responds `"you're welcome"` addressed (src/ircbot.py lines
72-74 and 111-118). -/
theorem c8_thank_responses (env : BotEnv) (is_oper : Bool)
    (args : List String) (user target : String) :
    handle_command env is_oper "thank" args user target
      = Except.ok (if String.intercalate " " args = "you" then
            [Action.privmsg target (user ++ ": " ++ "you're most welcome")]
          else
            [Action.privmsg target
              ("thanks, " ++ String.intercalate " " args ++ "!")])
    ∧ handle_command env is_oper "thanks" args user target
      = Except.ok [Action.privmsg target (user ++ ": " ++ "you're welcome")] := by
  cases is_oper <;> exact ⟨rfl, rfl⟩

/-- C10: an operator-issued `approve` or `reject` with zero argument words
makes `handle_command` index the empty argument list (`args[0]`,
src/ircbot.py lines 103 and 107) and raise an uncaught `IndexError`: no
task is submitted and no response is sent, and the error escapes the
dispatch of that message (shown on a full mention-prefixed event). -/
theorem c10_empty_args_index_error (env : BotEnv) (user target : String) :
    handle_command env true "approve" [] user target
      = Except.error PyError.indexError
    ∧ handle_command env true "reject" [] user target
      = Except.error PyError.indexError
    ∧ on_pubmsg env0 "create" ⟨"oper1!x@y", "#chan", ["create: approve"]⟩
        = Except.error PyError.indexError :=
  ⟨rfl, rfl, rfl⟩

end Ircbot
